import Mathlib

/-
Verification of the multi-user authentication core of the pozi-notebook
repository: password hashing, credential store, token service, authorization
middleware, tenancy enforcement, bootstrap sequencer, and two frontend
components (ProtectedRoute, SignupForm).

The backend snippets live in MULTI_USER_IMPLEMENTATION_PLAN.md (SurrealQL
schema and Python middleware/endpoints); the frontend components are real
TypeScript sources.  Parts of the backend that the repository only documents
(the deployed api/routers/auth.py, api/main.py and the token service) are
modelled from the specification; each such definition says so in its doc
comment.
-/

namespace Pozi

/-! ## Password hashing service (crypto::argon2) -/

/-- Modelled from the spec: the argon2 compression.  `crypto::argon2::generate`
and `crypto::argon2::compare` are SurrealDB built-ins, not repository code.
Per the spec the digest is self-describing (embeds salt and cost parameters)
and verification recomputes the tag from those parameters and the candidate
plaintext; the compression itself is idealized as a collision-free mixing of
salt, cost and plaintext characters. -/
def argon2Tag (salt cost : Nat) (p : String) : List Nat :=
  p.data.map (fun ch => ch.toNat + (31 * salt + cost))

/-- A self-describing argon2 digest: embedded salt, embedded cost parameter,
and the derived tag. -/
structure Argon2Digest where
  salt : Nat
  cost : Nat
  tag : List Nat
deriving Repr, DecidableEq

/-- Argon2 cost parameter baked into every generated digest. -/
def defaultCost : Nat := 19

/-- Modelled from the spec: `hash(plaintext)` / `crypto::argon2::generate`;
the salt is drawn fresh per call, so it is an explicit argument here. -/
def argon2Generate (p : String) (salt : Nat) : Argon2Digest :=
  ⟨salt, defaultCost, argon2Tag salt defaultCost p⟩

/-- Modelled from the spec: `verify(plaintext, digest)` /
`crypto::argon2::compare`: recompute the tag from the digest's embedded salt
and cost and compare. -/
def argon2Compare (d : Argon2Digest) (p : String) : Bool :=
  d.tag == argon2Tag d.salt d.cost p

/-! ## Credential store -/

/-- User record, from `DEFINE TABLE user` in MULTI_USER_IMPLEMENTATION_PLAN.md
Step 1.1: record id, email, password digest, display name, role. -/
structure User where
  id : String
  email : String
  password : Argon2Digest
  name : String
  role : String
deriving Repr, DecidableEq

/-- Error taxonomy of the signup/signin surface. -/
inductive AuthError
  | DuplicateEmail
  | InvalidCredentials
deriving Repr, DecidableEq

/-- Store-level signup, from the SIGNUP clause of `DEFINE ACCESS user_access`
(Step 1.2) together with the unique index `email_unique` on `user.email`
(Step 1.1): reject when a record with the same email string already exists,
otherwise append a new record with role `"user"` and an argon2-hashed
password.  Returns the outcome together with the resulting store (unchanged
on failure). -/
def signupStore (store : List User) (email name plaintext : String)
    (salt : Nat) (newId : String) : Except AuthError User × List User :=
  if store.any (fun u => u.email == email) then
    (.error .DuplicateEmail, store)
  else
    let u : User := ⟨newId, email, argon2Generate plaintext salt, name, "user"⟩
    (.ok u, store ++ [u])

/-- Store-level signin, from the SIGNIN clause of `DEFINE ACCESS user_access`
(Step 1.2): select the user whose email matches and whose stored digest
verifies against the presented password. -/
def signinStore (store : List User) (email plaintext : String) : Option User :=
  store.find? (fun u => u.email == email && argon2Compare u.password plaintext)

/-- Auth endpoint response shape, from frontend/src/lib/types/auth.ts
(`AuthResponse`). -/
structure AuthResponse where
  token : String
  user_id : String
  email : String
  name : String
  role : String
deriving Repr, DecidableEq

/-- Modelled from the spec: the signup endpoint (the deployed
api/routers/auth.py is not among the sources).  Output
`{token, user_id, email, name, role}` on success, `DuplicateEmail` when the
email already exists.  The bearer token accompanying the fresh session is an
opaque argument. -/
def signupEndpoint (store : List User) (name email plaintext : String)
    (salt : Nat) (newId tok : String) :
    Except AuthError AuthResponse × List User :=
  match signupStore store email name plaintext salt newId with
  | (.error e, st) => (.error e, st)
  | (.ok u, st) => (.ok ⟨tok, u.id, u.email, u.name, u.role⟩, st)

/-- Modelled from the spec: the signin endpoint; output has the identical
shape to signup and fails with `InvalidCredentials` without distinguishing a
missing email from a wrong password. -/
def signinEndpoint (store : List User) (email plaintext tok : String) :
    Except AuthError AuthResponse :=
  match signinStore store email plaintext with
  | none => .error .InvalidCredentials
  | some u => .ok ⟨tok, u.id, u.email, u.name, u.role⟩

/-- Character-wise lowercasing, the spec's notion of case-insensitive email
comparison; defined over the character list so it evaluates in the kernel. -/
def lowerStr (s : String) : String := ⟨s.data.map Char.toLower⟩

/-! ## Notebook domain model -/

/-- Notebook domain model, from Step 2.4 of MULTI_USER_IMPLEMENTATION_PLAN.md
(`class Notebook(ObjectModel)` with the added `user_id` field). -/
structure Notebook where
  name : String
  description : String
  archived : Bool
  user_id : Option String
deriving Repr, DecidableEq

/-- `Notebook.create`, from Step 2.4: the create path assigns
`self.user_id = user_id` (the authenticated caller's id) before the record is
persisted, overwriting whatever owner value the payload carried. -/
def Notebook.create (nb : Notebook) (caller_id : String) : Notebook :=
  { nb with user_id := some caller_id }

/-! ## Token service -/

/-- JWT claim set, from the token structure documented in
docs/features/authentication.md (`ID`, `role`, `iat`, `exp`).  The subject id
is optional because the payload is a loosely-typed map and `payload.get("ID")`
may come back empty. -/
structure Claims where
  sub : Option String
  role : String
  iat : Nat
  exp : Nat
deriving Repr, DecidableEq

/-- Token validation error taxonomy. -/
inductive TokenError
  | Malformed
  | BadSignature
  | Expired
deriving Repr, DecidableEq

/-- A presented bearer token: either structurally unparseable, or a parsed
claim set together with its (possibly wrong) signature. -/
inductive TokenWire
  | malformed
  | wellFormed (claims : Claims) (sig : Nat)
deriving Repr, DecidableEq

/-- Modelled from the spec: the signature over the claim set under the
process-wide secret.  Any fixed computable mixing serves the model; only
equality with the recomputed value matters. -/
def signF (secret : Nat) (c : Claims) : Nat :=
  secret + c.iat + 2 * c.exp + 3 * c.role.length +
    (match c.sub with | none => 0 | some s => 5 * s.length)

/-- Seven days in seconds: the fixed expiry window. -/
def sevenDays : Nat := 7 * 24 * 60 * 60

/-- Modelled from the spec: `issue(identity)` embeds subject id, role,
issued-at, and an expiry timestamp seven days out, signed with the
process-wide secret. -/
def issue (secret : Nat) (uid role : String) (now : Nat) : TokenWire :=
  let c : Claims := ⟨some uid, role, now, now + sevenDays⟩
  .wellFormed c (signF secret c)

/-- Modelled from the spec: `validate(token)` fails with `Malformed` when the
structure cannot be parsed, `BadSignature` when the signature does not verify,
`Expired` when `now > expiry`; otherwise it returns the decoded claims. -/
def validate (secret now : Nat) : TokenWire → Except TokenError Claims
  | .malformed => .error .Malformed
  | .wellFormed c sig =>
    if sig ≠ signF secret c then .error .BadSignature
    else if now > c.exp then .error .Expired
    else .ok c

/-! ## Authorization middleware -/

/-- The Authorization header, split into its scheme word and the carried
token. -/
structure AuthHeader where
  scheme : String
  token : TokenWire
deriving Repr, DecidableEq

/-- An inbound request as the middleware sees it: URL path plus the optional
Authorization header. -/
structure Request where
  path : String
  authorization : Option AuthHeader
deriving Repr, DecidableEq

/-- Default excluded paths of `JWTAuthMiddleware`, from Step 2.3 of
MULTI_USER_IMPLEMENTATION_PLAN.md. -/
def excludedPaths : List String :=
  ["/", "/health", "/docs", "/openapi.json", "/redoc",
   "/api/auth/signup", "/api/auth/signin", "/api/auth/status"]

/-- Per-request outcome of the middleware. -/
inductive DispatchOutcome
  | excluded
  | unauthorized
  | invalidToken
  | handled (user_id : String)
deriving Repr, DecidableEq

/-- `jwt.decode(token, options={"verify_signature": False})` from Step 2.3:
parses the claim structure and deliberately skips signature verification. -/
def jwtDecodeUnverified : TokenWire → Option Claims
  | .malformed => none
  | .wellFormed c _ => some c

/-- `JWTAuthMiddleware.dispatch`, from Step 2.3 of
MULTI_USER_IMPLEMENTATION_PLAN.md: excluded paths pass straight through; a
missing or non-Bearer header yields 401 Unauthorized; the token is decoded
WITHOUT signature verification (the comment in the source defers validation
to SurrealDB); a payload lacking `ID` yields 401 Invalid token; otherwise the
user id is attached to the request state and the handler is invoked. -/
def dispatch (excluded : List String) (req : Request) : DispatchOutcome :=
  if excluded.contains req.path then .excluded
  else
    match req.authorization with
    | none => .unauthorized
    | some h =>
      if h.scheme ≠ "Bearer" then .unauthorized
      else
        match jwtDecodeUnverified h.token with
        | none => .invalidToken
        | some c =>
          match c.sub with
          | none => .invalidToken
          | some uid => .handled uid

/-! ## Tenancy enforcement -/

/-- The authenticated principal (`$auth`): record id and role. -/
structure Auth where
  id : String
  role : String
deriving Repr, DecidableEq

/-- An owned resource row (notebook / source / note / transformation):
record id, optional owner reference, opaque payload. -/
structure Resource where
  id : String
  user_id : Option String
  payload : String
deriving Repr, DecidableEq

/-- The row-level permission predicate, from Step 1.5 of
MULTI_USER_IMPLEMENTATION_PLAN.md:
`WHERE user_id = $auth.id OR $auth.role = "admin"`. -/
def permitted (a : Auth) (r : Resource) : Bool :=
  r.user_id == some a.id || a.role == "admin"

/-- Error surface of the tenancy layer. -/
inductive TenancyError
  | Forbidden
  | NotFound
deriving Repr, DecidableEq

/-- List operation: rows filtered by the permission predicate (implicitly
scoped to the caller; the admin role makes the predicate true on every row,
which is the spec's no-filter full visibility). -/
def listResources (a : Auth) (store : List Resource) : List Resource :=
  store.filter (permitted a)

/-- Read one record by id within the caller's visibility. -/
def readResource (a : Auth) (store : List Resource) (rid : String) :
    Option Resource :=
  (listResources a store).find? (fun r => r.id == rid)

/-- Update scoped by ownership.  The scope predicate is the permission clause
of Step 1.5; the error surface is modelled from the spec: update re-checks
the existing owner and fails with `Forbidden` (not `NotFound`) when the
target exists but is outside the caller's scope. -/
def updateResource (a : Auth) (store : List Resource) (rid : String)
    (f : Resource → Resource) : Except TenancyError (List Resource) :=
  if (store.filter (fun r => r.id == rid)).isEmpty then .error .NotFound
  else if (store.filter (fun r => r.id == rid && permitted a r)).isEmpty then
    .error .Forbidden
  else
    .ok (store.map (fun r => if r.id == rid && permitted a r then f r else r))

/-- Delete scoped by ownership, with the same scope predicate and error
surface as update. -/
def deleteResource (a : Auth) (store : List Resource) (rid : String) :
    Except TenancyError (List Resource) :=
  if (store.filter (fun r => r.id == rid)).isEmpty then .error .NotFound
  else if (store.filter (fun r => r.id == rid && permitted a r)).isEmpty then
    .error .Forbidden
  else
    .ok (store.filter (fun r => !(r.id == rid && permitted a r)))

/-- Bool-valued success test for tenancy operations. -/
def tenancySucceeds : Except TenancyError (List Resource) → Bool
  | .ok _ => true
  | .error _ => false

/-! ## Migration engine and bootstrap sequencer -/

/-- Process-wide persisted state: current schema version plus the credential
store. -/
structure SysState where
  version : Nat
  users : List User
deriving Repr, DecidableEq

/-- Latest statically-defined migration version: the multi-user change-set is
`migrations/10.surrealql`. -/
def latestVersion : Nat := 10

/-- Modelled from the spec: `applyForward()` with no target applies every
pending migration in ascending order and is a no-op when already current; no
claim inspects intermediate versions, so the model advances the persisted
version directly to the latest one. -/
def applyForwardLatest (s : SysState) : SysState :=
  if s.version < latestVersion then { s with version := latestVersion } else s

/-- The fixed default admin identity, from Step 1.4 of
MULTI_USER_IMPLEMENTATION_PLAN.md (`CREATE user:admin`). -/
def defaultAdmin : User :=
  ⟨"user:admin", "admin@localhost",
    argon2Generate "change-me-immediately" 0, "System Administrator", "admin"⟩

/-- Modelled from the spec: bootstrap step 2 (the deployed api/main.py is not
among the sources; per the progress notes admin creation moved from the
migration into API startup): query for an identity with role `admin` and
create the default admin only when none exists. -/
def ensureAdmin (s : SysState) : SysState :=
  if s.users.any (fun u => u.role == "admin") then s
  else { s with users := s.users ++ [defaultAdmin] }

/-- Bootstrap sequencer: migrate to the latest version, then ensure the admin
identity exists.  Both steps are total in this model, so every run succeeds
(no claim exercises a failing migration). -/
def bootstrap (s : SysState) : SysState :=
  ensureAdmin (applyForwardLatest s)

/-- Number of identities with role `admin` in the credential store. -/
def countAdmins (s : SysState) : Nat :=
  (s.users.filter (fun u => u.role == "admin")).length

/-! ## Frontend: ProtectedRoute -/

/-- The slice of the auth store read by the ProtectedRoute component
(docs/features/authentication.md, appended component source): hydration flag,
tri-state authRequired (null / false / true), and the authenticated flag. -/
structure RouteState where
  hasHydrated : Bool
  authRequired : Option Bool
  isAuthenticated : Bool
deriving Repr, DecidableEq

/-- What ProtectedRoute renders. -/
inductive Rendered
  | spinner
  | children
deriving Repr, DecidableEq

/-- The render function of ProtectedRoute: a spinner while not hydrated or
while authRequired is still null (which is also the state an error in
checkAuthRequired leaves behind); the protected children only when
authRequired is false or the caller is authenticated; otherwise a spinner
while the effect redirects to /login. -/
def protectedRouteRender (s : RouteState) : Rendered :=
  if !s.hasHydrated || s.authRequired == none then .spinner
  else if s.authRequired == some false then .children
  else if s.isAuthenticated then .children
  else .spinner

/-! ## Frontend: SignupForm -/

/-- Trim as used by the form (`String.prototype.trim`): strip whitespace from
both ends; defined over the character list so it evaluates in the kernel. -/
def trimStr (s : String) : String :=
  ⟨((s.data.dropWhile Char.isWhitespace).reverse.dropWhile
      Char.isWhitespace).reverse⟩

/-- The four controlled fields of SignupForm
(frontend/src/components/auth/SignupForm.tsx). -/
structure SignupFormState where
  name : String
  email : String
  password : String
  confirmPassword : String
deriving Repr, DecidableEq

/-- What handleSubmit does: set a local error and return, or invoke the
signup operation with the entered credentials. -/
inductive SubmitAction
  | localError (msg : String)
  | invokeSignup (name email password : String)
deriving Repr, DecidableEq

/-- `SignupForm.handleSubmit`, from
frontend/src/components/auth/SignupForm.tsx: validations in source order
(blank name, blank email, blank password, length below 8, mismatching
confirmation), each setting a local error and returning before any request;
only past all five does it invoke signup. -/
def handleSubmit (s : SignupFormState) : SubmitAction :=
  if trimStr s.name = "" then .localError "Name is required"
  else if trimStr s.email = "" then .localError "Email is required"
  else if trimStr s.password = "" then .localError "Password is required"
  else if s.password.length < 8 then
    .localError "Password must be at least 8 characters"
  else if s.password ≠ s.confirmPassword then
    .localError "Passwords do not match"
  else .invokeSignup s.name s.email s.password

/-- Bool-valued test: did handleSubmit stop with a local error (and hence not
issue a request)? -/
def setsLocalError : SubmitAction → Bool
  | .localError _ => true
  | .invokeSignup _ _ _ => false

/-! ## Concrete instances used by counterexamples and witnesses -/

/-- An existing account, as in the spec's concrete scenario. -/
def annUser : User :=
  ⟨"user:1", "ann@x.com", argon2Generate "password123" 1, "Ann", "user"⟩

/-- A parsed claim set naming a subject. -/
def c2Claims : Claims := ⟨some "user:alice", "user", 0, sevenDays⟩

/-- A token whose claims parse but whose signature is off by one. -/
def c2BadToken : TokenWire := .wellFormed c2Claims (signF 42 c2Claims + 1)

/-- A request to a protected path presenting the bad-signature token. -/
def c2Request : Request := ⟨"/api/notebooks", some ⟨"Bearer", c2BadToken⟩⟩

/-- A second identity that also carries the admin role. -/
def secondAdmin : User :=
  ⟨"user:root2", "root2@localhost", argon2Generate "hunter2hunter2" 5,
    "Second Admin", "admin"⟩

/-- A fully migrated state that already holds two admin identities. -/
def twoAdminState : SysState := ⟨10, [defaultAdmin, secondAdmin]⟩

/-- Tenancy scenario: user A, user B, an admin, A's notebook, and a store
holding one notebook per user. -/
def tenantA : Auth := ⟨"user:a", "user"⟩

def tenantB : Auth := ⟨"user:b", "user"⟩

def tenantAdmin : Auth := ⟨"user:admin", "admin"⟩

def notebookOfA : Resource := ⟨"notebook:1", some "user:a", "plans"⟩

def notebookOfB : Resource := ⟨"notebook:2", some "user:b", "notes"⟩

def tenancyStore : List Resource := [notebookOfA, notebookOfB]

/-! ## Helper lemmas -/

lemma charShift_injective (k : Nat) :
    Function.Injective (fun ch : Char => ch.toNat + k) := by
  intro a b h
  have h2 : a.toNat = b.toNat := Nat.add_right_cancel h
  have h3 := congrArg Char.ofNat h2
  rwa [Char.ofNat_toNat, Char.ofNat_toNat] at h3

lemma argon2Tag_injective (salt cost : Nat) {p q : String}
    (h : argon2Tag salt cost p = argon2Tag salt cost q) : p = q := by
  have hd : p.data = q.data :=
    List.map_injective_iff.mpr (charShift_injective (31 * salt + cost)) h
  cases p
  cases q
  exact congrArg String.mk hd

lemma isEmpty_false_of_mem {α : Type} {l : List α} {a : α} (h : a ∈ l) :
    l.isEmpty = false := by
  cases l with
  | nil => cases h
  | cons b bs => rfl

lemma find_unique_mem {store : List Resource} {r : Resource}
    (hmem : r ∈ store) (huniq : ∀ x ∈ store, x.id = r.id → x = r) :
    store.find? (fun x => x.id == r.id) = some r := by
  induction store with
  | nil => cases hmem
  | cons a as ih =>
    by_cases ha : a.id = r.id
    · have har : a = r := huniq a (List.mem_cons_self a as) ha
      rw [List.find?_cons_of_pos _ (by simp [ha]), har]
    · rw [List.find?_cons_of_neg _ (by simp [ha])]
      apply ih
      · rcases List.mem_cons.mp hmem with hra | hras
        · subst hra
          exact absurd rfl ha
        · exact hras
      · exact fun x hx => huniq x (List.mem_cons_of_mem a hx)

lemma applyForwardLatest_users (s : SysState) :
    (applyForwardLatest s).users = s.users := by
  unfold applyForwardLatest
  split <;> rfl

lemma applyForwardLatest_version_ge (s : SysState) :
    latestVersion ≤ (applyForwardLatest s).version := by
  unfold applyForwardLatest
  by_cases h : s.version < latestVersion
  · simp [h]
  · simp [h]
    omega

lemma applyForwardLatest_idem_of_ge {s : SysState}
    (h : latestVersion ≤ s.version) : applyForwardLatest s = s := by
  unfold applyForwardLatest
  rw [if_neg]
  omega

lemma countAdmins_users_eq {s t : SysState} (h : s.users = t.users) :
    countAdmins s = countAdmins t := by
  unfold countAdmins
  rw [h]

/-! ## Theorems -/

/-- Claim C7: verify(p, hash(p)) is true for every plaintext p, and for
distinct plaintexts p and q, verify(p, hash(q)) is false. -/
theorem argon2_verify_correct (p q : String) (salt : Nat) :
    argon2Compare (argon2Generate p salt) p = true ∧
    (p ≠ q → argon2Compare (argon2Generate q salt) p = false) := by
  constructor
  · simp [argon2Compare, argon2Generate]
  · intro hne
    simp only [argon2Compare, argon2Generate]
    rw [beq_eq_false_iff_ne]
    intro heq
    exact hne (argon2Tag_injective salt defaultCost heq).symm

/-- Claim C7 witness: the round trip and the rejection evaluated on the
spec's concrete scenario passwords. -/
theorem argon2_verify_correct_witness :
    ("password123" : String) ≠ "wrong1234" ∧
    argon2Compare (argon2Generate "password123" 3) "password123" = true ∧
    argon2Compare (argon2Generate "wrong1234" 3) "password123" = false :=
  ⟨by decide, (argon2_verify_correct "password123" "wrong1234" 3).1,
    (argon2_verify_correct "password123" "wrong1234" 3).2 (by decide)⟩

/-- Claim C6: the owner stored by Notebook.create is always the caller's id,
regardless of the owner value carried by the client payload. -/
theorem create_sets_owner (nb : Notebook) (caller_id : String) :
    (Notebook.create nb caller_id).user_id = some caller_id := rfl

/-- Claim C9: ProtectedRoute renders its protected children only when
authRequired is false or the caller is authenticated, and whenever
authRequired is still null (the state an error in the requirement check
leaves behind) it renders the loading spinner — fail closed. -/
theorem protected_route_fails_closed (s : RouteState) :
    (protectedRouteRender s = .children →
      s.authRequired = some false ∨ s.isAuthenticated = true) ∧
    (s.authRequired = none → protectedRouteRender s = .spinner) := by
  obtain ⟨hh, ar, ia⟩ := s
  cases hh <;> cases ia <;> rcases ar with _ | b <;>
    simp [protectedRouteRender]

/-- Claim C9 witness: a state that renders children does satisfy the
disjunction, and the null-authRequired state renders the spinner. -/
theorem protected_route_fails_closed_witness :
    protectedRouteRender ⟨true, some false, false⟩ = .children ∧
    ((⟨true, some false, false⟩ : RouteState).authRequired = some false ∨
      (⟨true, some false, false⟩ : RouteState).isAuthenticated = true) ∧
    protectedRouteRender ⟨true, none, true⟩ = .spinner :=
  ⟨rfl, (protected_route_fails_closed ⟨true, some false, false⟩).1 rfl,
    (protected_route_fails_closed ⟨true, none, true⟩).2 rfl⟩

/-- Claim C10: handleSubmit never invokes signup when the two password fields
differ, the password is shorter than 8 characters, or name, email, or
password is blank; in each such state it stops with a local error. -/
theorem signup_form_validation (s : SignupFormState)
    (h : s.password ≠ s.confirmPassword ∨ s.password.length < 8 ∨
      trimStr s.name = "" ∨ trimStr s.email = "" ∨ trimStr s.password = "") :
    setsLocalError (handleSubmit s) = true := by
  unfold handleSubmit
  split_ifs with h1 h2 h3 h4 h5 <;> try rfl
  rcases h with h | h | h | h | h <;> tauto

/-- Claim C10 witness: a form whose password is 5 characters long stops with
a local error instead of issuing the request. -/
theorem signup_form_validation_witness :
    ("short" : String).length < 8 ∧
    setsLocalError (handleSubmit ⟨"Bob", "bob@x.com", "short", "short"⟩) =
      true :=
  ⟨by decide,
    signup_form_validation ⟨"Bob", "bob@x.com", "short", "short"⟩
      (Or.inr (Or.inl (by decide)))⟩

/-- Claim C4 counterexample: with `ann@x.com` on file, a signup for
`Ann@X.com` — the same email up to case — is NOT rejected: a second record is
created, because the unique index compares email strings exactly. -/
theorem signup_case_insensitive_refuted :
    lowerStr "Ann@X.com" = lowerStr "ann@x.com" ∧
    (signupStore [annUser] "Ann@X.com" "Ann Again" "password456" 2
        "user:2").1 ≠ Except.error AuthError.DuplicateEmail ∧
    (signupStore [annUser] "Ann@X.com" "Ann Again" "password456" 2
        "user:2").2.length = 2 := by
  refine ⟨by decide, ?_, rfl⟩
  have h0 : (signupStore [annUser] "Ann@X.com" "Ann Again" "password456" 2
      "user:2").1 = Except.ok ⟨"user:2", "Ann@X.com",
        argon2Generate "password456" 2, "Ann Again", "user"⟩ := rfl
  rw [h0]
  intro h
  exact Except.noConfusion h

/-- Claim C4 (amended): a signup whose email exactly equals the email of an
existing user fails with DuplicateEmail and leaves the store unchanged; the
store-level unique index enforces exact-match (case-sensitive) uniqueness. -/
theorem signup_duplicate_email (store : List User)
    (email name plaintext : String) (salt : Nat) (newId : String)
    (h : ∃ u ∈ store, u.email = email) :
    (signupStore store email name plaintext salt newId).1 =
      Except.error AuthError.DuplicateEmail ∧
    (signupStore store email name plaintext salt newId).2 = store := by
  obtain ⟨u, hu, he⟩ := h
  have hany : store.any (fun u => u.email == email) = true :=
    List.any_eq_true.mpr ⟨u, hu, by simp [he]⟩
  simp [signupStore, hany]

/-- Claim C4 witness: re-signing up Ann's exact email is rejected and adds no
record. -/
theorem signup_duplicate_email_witness :
    annUser ∈ [annUser] ∧ annUser.email = "ann@x.com" ∧
    (signupStore [annUser] "ann@x.com" "Ann Again" "password456" 2
        "user:2").1 = Except.error AuthError.DuplicateEmail ∧
    (signupStore [annUser] "ann@x.com" "Ann Again" "password456" 2
        "user:2").2 = [annUser] := by
  have h := signup_duplicate_email [annUser] "ann@x.com" "Ann Again"
    "password456" 2 "user:2" ⟨annUser, by decide, rfl⟩
  exact ⟨by decide, rfl, h.1, h.2⟩

/-- Claim C5: a successful signup response is exactly
{token, user_id, email, name, role} with the role field present (set to the
default role `user`), and a successful signin response has the identical
shape, populated from the matched user record. -/
theorem auth_response_shape (store store₂ : List User)
    (name email pw email₂ pw₂ : String) (salt : Nat) (newId tok tok₂ : String)
    (r r₂ : AuthResponse) (u : User)
    (h₁ : (signupEndpoint store name email pw salt newId tok).1 =
      Except.ok r)
    (h₂ : signinEndpoint store₂ email₂ pw₂ tok₂ = Except.ok r₂)
    (hu : signinStore store₂ email₂ pw₂ = some u) :
    r = ⟨tok, newId, email, name, "user"⟩ ∧
    r₂ = ⟨tok₂, u.id, u.email, u.name, u.role⟩ := by
  constructor
  · unfold signupEndpoint signupStore at h₁
    by_cases hdup : store.any (fun v => v.email == email) = true
    · simp [hdup] at h₁
    · rw [if_neg hdup] at h₁
      simp at h₁
      exact h₁.symm
  · unfold signinEndpoint at h₂
    rw [hu] at h₂
    simpa using h₂.symm

/-- Claim C5 witness: a concrete signup into an empty store and a concrete
signin against Ann's account both return the full five-field shape. -/
theorem auth_response_shape_witness :
    (signupEndpoint [] "Ann" "ann@x.com" "password123" 1 "user:1" "T1").1 =
      Except.ok (⟨"T1", "user:1", "ann@x.com", "Ann", "user"⟩ :
        AuthResponse) ∧
    signinEndpoint [annUser] "ann@x.com" "password123" "T2" =
      Except.ok (⟨"T2", "user:1", "ann@x.com", "Ann", "user"⟩ :
        AuthResponse) ∧
    (⟨"T1", "user:1", "ann@x.com", "Ann", "user"⟩ : AuthResponse) =
      ⟨"T1", "user:1", "ann@x.com", "Ann", "user"⟩ ∧
    (⟨"T2", "user:1", "ann@x.com", "Ann", "user"⟩ : AuthResponse) =
      ⟨"T2", annUser.id, annUser.email, annUser.name, annUser.role⟩ := by
  have h := auth_response_shape [] [annUser] "Ann" "ann@x.com" "password123"
    "ann@x.com" "password123" 1 "user:1" "T1" "T2"
    ⟨"T1", "user:1", "ann@x.com", "Ann", "user"⟩
    ⟨"T2", "user:1", "ann@x.com", "Ann", "user"⟩ annUser rfl rfl rfl
  exact ⟨rfl, rfl, h.1, h.2⟩

/-- Claim C2 counterexample: a token whose claims parse but whose signature
is wrong does fail validation with BadSignature, yet the middleware — which
decodes with signature verification disabled — attaches the subject and
invokes the handler instead of rejecting the request. -/
theorem bad_signature_not_rejected_by_middleware :
    validate 42 0 c2BadToken = Except.error TokenError.BadSignature ∧
    dispatch excludedPaths c2Request = DispatchOutcome.handled "user:alice" :=
  ⟨rfl, rfl⟩

/-- Claim C2 (amended): a parseable token with a bad signature makes the
token service's validate fail with BadSignature, but the middleware does not
verify signatures: on a non-excluded path it rejects only unparseable tokens
or payloads lacking an ID, so this token reaches the handler with its claimed
subject attached. -/
theorem bad_signature_middleware_behavior (secret now : Nat) (c : Claims)
    (sig : Nat) (uid path : String)
    (hsig : sig ≠ signF secret c)
    (hsub : c.sub = some uid)
    (hpath : excludedPaths.contains path = false) :
    validate secret now (.wellFormed c sig) =
      Except.error TokenError.BadSignature ∧
    dispatch excludedPaths ⟨path, some ⟨"Bearer", .wellFormed c sig⟩⟩ =
      DispatchOutcome.handled uid := by
  constructor
  · simp [validate, hsig]
  · simp [dispatch, hpath, jwtDecodeUnverified, hsub]
    simpa using hpath

/-- Claim C2 witness: the amended behavior evaluated at the concrete
bad-signature request. -/
theorem bad_signature_middleware_behavior_witness :
    signF 42 c2Claims + 1 ≠ signF 42 c2Claims ∧
    c2Claims.sub = some "user:alice" ∧
    excludedPaths.contains "/api/notebooks" = false ∧
    validate 42 0 (.wellFormed c2Claims (signF 42 c2Claims + 1)) =
      Except.error TokenError.BadSignature ∧
    dispatch excludedPaths
        ⟨"/api/notebooks",
          some ⟨"Bearer", .wellFormed c2Claims (signF 42 c2Claims + 1)⟩⟩ =
      DispatchOutcome.handled "user:alice" := by
  have h := bad_signature_middleware_behavior 42 0 c2Claims
    (signF 42 c2Claims + 1) "user:alice" "/api/notebooks"
    (Nat.succ_ne_self (signF 42 c2Claims)) rfl (by decide)
  exact ⟨Nat.succ_ne_self (signF 42 c2Claims), rfl, by decide, h.1, h.2⟩

/-- Claim C3 counterexample: at the check time exactly seven days after
issuance the claim predicts Expired, but validation succeeds, because the
expiry rule is `now > expiry` and here now = expiry. -/
theorem expiry_boundary_refuted :
    (0 : Nat) + sevenDays ≤ sevenDays ∧
    validate 9 sevenDays (issue 9 "user:a" "user" 0) =
      Except.ok ⟨some "user:a", "user", 0, sevenDays⟩ ∧
    validate 9 sevenDays (issue 9 "user:a" "user" 0) ≠
      Except.error TokenError.Expired := by
  refine ⟨by omega, rfl, ?_⟩
  intro h
  rw [show validate 9 sevenDays (issue 9 "user:a" "user" 0) =
      Except.ok ⟨some "user:a", "user", 0, sevenDays⟩ from rfl] at h
  exact Except.noConfusion h

/-- Claim C3 (amended): every issued token carries an expiry of exactly
T + 7 days; validation of it succeeds at every check time T' ≤ T + 7 days
(in particular throughout [T, T + 7 days)) and fails with Expired at every
T' > T + 7 days. -/
theorem token_lifecycle (secret : Nat) (uid role : String) (T T' : Nat) :
    issue secret uid role T =
      TokenWire.wellFormed ⟨some uid, role, T, T + sevenDays⟩
        (signF secret ⟨some uid, role, T, T + sevenDays⟩) ∧
    (T' ≤ T + sevenDays →
      validate secret T' (issue secret uid role T) =
        Except.ok ⟨some uid, role, T, T + sevenDays⟩) ∧
    (T + sevenDays < T' →
      validate secret T' (issue secret uid role T) =
        Except.error TokenError.Expired) := by
  refine ⟨rfl, ?_, ?_⟩
  · intro h
    simp only [issue, validate, ne_eq, not_true_eq_false, if_false,
      if_neg (not_not_intro rfl)]
    rw [if_neg]
    omega
  · intro h
    simp only [issue, validate]
    rw [if_neg (not_not_intro rfl), if_pos]
    omega

/-- Claim C3 witness: a token issued at time 0 validates at the boundary
check time and fails with Expired one second past it. -/
theorem token_lifecycle_witness :
    sevenDays ≤ 0 + sevenDays ∧
    validate 7 sevenDays (issue 7 "user:ann" "user" 0) =
      Except.ok ⟨some "user:ann", "user", 0, 0 + sevenDays⟩ ∧
    0 + sevenDays < sevenDays + 1 ∧
    validate 7 (sevenDays + 1) (issue 7 "user:ann" "user" 0) =
      Except.error TokenError.Expired := by
  have h1 := (token_lifecycle 7 "user:ann" "user" 0 sevenDays).2.1 (by omega)
  have h2 := (token_lifecycle 7 "user:ann" "user" 0 (sevenDays + 1)).2.2
    (by omega)
  exact ⟨by omega, h1, by omega, h2⟩

/-- Claim C1: for distinct users A and B with role `user`, a resource owned
by A is never returned by B's list or read, B's update and delete on it fail
with Forbidden, and an admin's list, read, update, and delete against it all
succeed. -/
theorem tenancy_isolation (A B adm : Auth) (r : Resource)
    (store : List Resource) (f : Resource → Resource)
    (hAB : A.id ≠ B.id)
    (_hA : A.role = "user") (hB : B.role = "user")
    (hadm : adm.role = "admin")
    (hr : r.user_id = some A.id)
    (hmem : r ∈ store)
    (huniq : ∀ x ∈ store, x.id = r.id → x = r) :
    r ∉ listResources B store ∧
    (∀ r', readResource B store r.id = some r' → r' ≠ r) ∧
    updateResource B store r.id f = Except.error TenancyError.Forbidden ∧
    deleteResource B store r.id = Except.error TenancyError.Forbidden ∧
    r ∈ listResources adm store ∧
    readResource adm store r.id = some r ∧
    tenancySucceeds (updateResource adm store r.id f) = true ∧
    tenancySucceeds (deleteResource adm store r.id) = true := by
  have hpermB : permitted B r = false := by
    simp [permitted, hr, hB, hAB]
  have hpermAdm : ∀ x : Resource, permitted adm x = true := fun x => by
    simp [permitted, hadm]
  have hnotin : r ∉ listResources B store := by
    intro hin
    have := (List.mem_filter.mp hin).2
    rw [hpermB] at this
    cases this
  have hid_nonempty : (store.filter (fun x => x.id == r.id)).isEmpty =
      false :=
    isEmpty_false_of_mem (List.mem_filter.mpr ⟨hmem, by simp⟩)
  have hBfilter : store.filter (fun x => x.id == r.id && permitted B x) =
      [] := by
    rw [List.filter_eq_nil_iff]
    intro x hx hpx
    have hpx' : x.id = r.id ∧ permitted B x = true := by simpa using hpx
    have hxr : x = r := huniq x hx hpx'.1
    have hxperm := hpx'.2
    rw [hxr, hpermB] at hxperm
    cases hxperm
  have hAdmNonempty :
      (store.filter (fun x => x.id == r.id && permitted adm x)).isEmpty =
        false :=
    isEmpty_false_of_mem
      (List.mem_filter.mpr ⟨hmem, by simp [hpermAdm r]⟩)
  refine ⟨hnotin, ?_, ?_, ?_, ?_, ?_, ?_, ?_⟩
  · intro r' hf heq
    subst heq
    exact hnotin (List.mem_of_find?_eq_some hf)
  · simp [updateResource, hid_nonempty, hBfilter]
  · simp [deleteResource, hid_nonempty, hBfilter]
  · exact List.mem_filter.mpr ⟨hmem, hpermAdm r⟩
  · unfold readResource listResources
    rw [List.filter_eq_self.mpr (fun x _ => hpermAdm x)]
    exact find_unique_mem hmem huniq
  · simp [updateResource, hid_nonempty, hAdmNonempty, tenancySucceeds]
  · simp [deleteResource, hid_nonempty, hAdmNonempty, tenancySucceeds]

/-- Claim C1 witness: the isolation facts evaluated on the two-tenant store
with A's notebook. -/
theorem tenancy_isolation_witness :
    tenantA.id ≠ tenantB.id ∧
    notebookOfA.user_id = some tenantA.id ∧
    notebookOfA ∈ tenancyStore ∧
    notebookOfA ∉ listResources tenantB tenancyStore ∧
    updateResource tenantB tenancyStore "notebook:1" id =
      Except.error TenancyError.Forbidden ∧
    deleteResource tenantB tenancyStore "notebook:1" =
      Except.error TenancyError.Forbidden ∧
    notebookOfA ∈ listResources tenantAdmin tenancyStore ∧
    readResource tenantAdmin tenancyStore "notebook:1" = some notebookOfA ∧
    tenancySucceeds
        (updateResource tenantAdmin tenancyStore "notebook:1" id) = true ∧
    tenancySucceeds (deleteResource tenantAdmin tenancyStore "notebook:1") =
      true := by
  have h := tenancy_isolation tenantA tenantB tenantAdmin notebookOfA
    tenancyStore id (by decide) rfl rfl rfl rfl (by decide) (by decide)
  exact ⟨by decide, rfl, by decide, h.1, h.2.2.1, h.2.2.2.1, h.2.2.2.2.1,
    h.2.2.2.2.2.1, h.2.2.2.2.2.2.1, h.2.2.2.2.2.2.2⟩

/-- Claim C8 counterexample: starting from a (run-to-completion-safe) state
that already holds two admin identities, both bootstrap runs succeed and are
no-ops, but the result holds two admins, not exactly one. -/
theorem bootstrap_two_admins_refuted :
    bootstrap (bootstrap twoAdminState) = twoAdminState ∧
    countAdmins (bootstrap (bootstrap twoAdminState)) = 2 := ⟨rfl, rfl⟩

/-- Claim C8 (amended): from any starting state holding at most one admin
identity, running the bootstrap sequencer twice leaves exactly one admin, the
same persisted schema version after both runs, and the second run — its
admin-creation step included — is a no-op. -/
theorem bootstrap_idempotent (s : SysState) (h : countAdmins s ≤ 1) :
    bootstrap (bootstrap s) = bootstrap s ∧
    countAdmins (bootstrap s) = 1 ∧
    (bootstrap (bootstrap s)).version = (bootstrap s).version ∧
    ensureAdmin (applyForwardLatest (bootstrap s)) =
      applyForwardLatest (bootstrap s) := by
  have husers : (applyForwardLatest s).users = s.users :=
    applyForwardLatest_users s
  have hver : latestVersion ≤ (applyForwardLatest s).version :=
    applyForwardLatest_version_ge s
  by_cases hA : s.users.any (fun u => u.role == "admin") = true
  · have hens : ensureAdmin (applyForwardLatest s) = applyForwardLatest s := by
      unfold ensureAdmin
      rw [husers, if_pos hA]
    have hboot : bootstrap s = applyForwardLatest s := by
      unfold bootstrap
      exact hens
    have hidem : applyForwardLatest (bootstrap s) = bootstrap s := by
      rw [hboot]
      exact applyForwardLatest_idem_of_ge hver
    have hens2 : ensureAdmin (applyForwardLatest (bootstrap s)) =
        applyForwardLatest (bootstrap s) := by
      rw [hidem, hboot]
      exact hens
    have hcount : countAdmins (bootstrap s) = 1 := by
      rw [hboot]
      rw [countAdmins_users_eq husers]
      obtain ⟨u, hu, hurole⟩ := List.any_eq_true.mp hA
      have hmemf : u ∈ s.users.filter (fun v => v.role == "admin") :=
        List.mem_filter.mpr ⟨hu, hurole⟩
      have h1 : 1 ≤ countAdmins s := by
        unfold countAdmins
        exact List.length_pos.mpr (List.ne_nil_of_mem hmemf)
      omega
    refine ⟨?_, hcount, ?_, hens2⟩
    · show ensureAdmin (applyForwardLatest (bootstrap s)) = bootstrap s
      rw [hens2, hidem]
    · show (ensureAdmin (applyForwardLatest (bootstrap s))).version = _
      rw [hens2, hidem]
  · have hAf : s.users.any (fun u => u.role == "admin") = false :=
      Bool.eq_false_iff.mpr hA
    have hzero : s.users.filter (fun u => u.role == "admin") = [] := by
      rw [List.filter_eq_nil_iff]
      intro u hu hurole
      have := List.any_eq_false.mp hAf u hu
      exact this hurole
    have hens : ensureAdmin (applyForwardLatest s) =
        ⟨(applyForwardLatest s).version, s.users ++ [defaultAdmin]⟩ := by
      unfold ensureAdmin
      rw [husers, if_neg hA]
    have hboot : bootstrap s =
        ⟨(applyForwardLatest s).version, s.users ++ [defaultAdmin]⟩ := hens
    have hcount : countAdmins (bootstrap s) = 1 := by
      rw [hboot]
      unfold countAdmins
      rw [List.filter_append, hzero]
      rfl
    have hidem : applyForwardLatest (bootstrap s) = bootstrap s := by
      apply applyForwardLatest_idem_of_ge
      rw [hboot]
      exact hver
    have hanyAfter : (bootstrap s).users.any
        (fun u => u.role == "admin") = true := by
      rw [hboot]
      apply List.any_eq_true.mpr
      exact ⟨defaultAdmin, List.mem_append_right _ (by simp), rfl⟩
    have hens2 : ensureAdmin (applyForwardLatest (bootstrap s)) =
        applyForwardLatest (bootstrap s) := by
      rw [hidem]
      unfold ensureAdmin
      rw [if_pos hanyAfter]
    refine ⟨?_, hcount, ?_, hens2⟩
    · show ensureAdmin (applyForwardLatest (bootstrap s)) = bootstrap s
      rw [hens2, hidem]
    · show (ensureAdmin (applyForwardLatest (bootstrap s))).version = _
      rw [hens2, hidem]

/-- Claim C8 witness: double bootstrap from the empty pre-migration state
yields exactly one admin, a stable schema version, and an idempotent second
run. -/
theorem bootstrap_idempotent_witness :
    countAdmins ⟨0, []⟩ ≤ 1 ∧
    bootstrap (bootstrap ⟨0, []⟩) = bootstrap ⟨0, []⟩ ∧
    countAdmins (bootstrap ⟨0, []⟩) = 1 ∧
    (bootstrap (bootstrap ⟨0, []⟩)).version = (bootstrap ⟨0, []⟩).version := by
  have h := bootstrap_idempotent ⟨0, []⟩ (by decide)
  exact ⟨by decide, h.1, h.2.1, h.2.2.1⟩

end Pozi
